import Mathlib

/-!
Shallow embedding of the StudioManager client core (src/App.jsx and the two
unnamed variants): the metrics aggregator (`stats`), the collection
synchronizer callbacks (`onSnapshot` handlers and their teardown), the
mutation gateway (`addData`, `updateStatus`, `deleteItem`), the dashboard
views (`orders.slice(0, 5)`, low-stock filter/badge), and the inventory
stock decrement (`Math.max(0, i.stock - 1)`).

Numeric fields carried by store records are modelled as the result of the
JavaScript `Number(v)` coercion the aggregator applies: `some q` when the
coercion yields the finite number `q`, `none` when it yields `NaN` (field
missing, `undefined`, or a non-numeric string). Arithmetic is over `ℚ`.
-/

namespace StudioManager

/-- A record field as seen through `Number(v)`: `some q` when coercion yields
the finite number `q`, `none` when it yields `NaN`. -/
abbrev JSNum := Option ℚ

/-- `Number(v) || 0`: `NaN` (the only falsy outcome that is not already `0`)
falls back to `0`; every finite coercion result passes through unchanged. -/
def numOr0 : JSNum → ℚ
  | some q => q
  | none => 0

/-- An order record as held in the `orders` snapshot
(`{ id, cliente, descripcion, total, adelanto, estado, createdAt }`;
only the fields the claims touch are carried). -/
structure Order where
  id : String
  cliente : String
  total : JSNum
  adelanto : JSNum
  estado : String
deriving DecidableEq

/-- An expense record as held in the `expenses` snapshot. -/
structure Expense where
  id : String
  concepto : String
  monto : JSNum
  fecha : String
deriving DecidableEq

/-- An inventory record as held in the `inventory` snapshot. -/
structure InventoryItem where
  id : String
  item : String
  stock : Int
  minimo : Int
deriving DecidableEq

/-- The record returned by the `stats` `useMemo`. -/
structure Stats where
  totalVentas : ℚ
  totalRecaudado : ℚ
  totalGastos : ℚ
  pedidosPendientes : Nat
  balance : ℚ
deriving DecidableEq

/-- src/App.jsx lines 249-255: the `stats` memo.
`totalVentas = orders.reduce((sum, o) => sum + (Number(o.total) || 0), 0)`,
`totalRecaudado` likewise over `adelanto`, `totalGastos` over `monto`,
`pedidosPendientes = orders.filter(o => o.estado !== 'Entregado').length`,
`balance = totalRecaudado - totalGastos`. -/
def stats (orders : List Order) (expenses : List Expense) : Stats :=
  let totalVentas := orders.foldl (fun sum o => sum + numOr0 o.total) 0
  let totalRecaudado := orders.foldl (fun sum o => sum + numOr0 o.adelanto) 0
  let totalGastos := expenses.foldl (fun sum e => sum + numOr0 e.monto) 0
  let pedidosPendientes := (orders.filter (fun o => o.estado != "Entregado")).length
  { totalVentas := totalVentas
    totalRecaudado := totalRecaudado
    totalGastos := totalGastos
    pedidosPendientes := pedidosPendientes
    balance := totalRecaudado - totalGastos }

/-- Spec-side contribution of one order to `totalSales`: the numeric value of
its `total` field, with a missing or non-coercible field contributing 0. -/
def specTotalContrib (o : Order) : ℚ :=
  match o.total with
  | some q => q
  | none => 0

/-- Spec-side contribution of one order to `totalCollected` (`adelanto`). -/
def specAdvanceContrib (o : Order) : ℚ :=
  match o.adelanto with
  | some q => q
  | none => 0

/-- Spec-side contribution of one expense to `totalExpenses` (`monto`). -/
def specExpenseContrib (e : Expense) : ℚ :=
  match e.monto with
  | some q => q
  | none => 0

/-- A document as delivered by the store inside a snapshot notification:
store-assigned `id` plus the document's fields (`doc.data()`), kept opaque. -/
structure StoreDoc (α : Type) where
  id : String
  data : α
deriving DecidableEq

/-- A locally cached record: the document fields tagged with the
store-assigned id, as built by `{ id: doc.id, ...doc.data() }`. -/
structure LocalRecord (α : Type) where
  id : String
  fields : α
deriving DecidableEq

/-- src/App.jsx lines 212-222: the body of each `onSnapshot` callback,
`snapshot.docs.map(doc => ({ id: doc.id, ...doc.data() }))`; the result is
handed to the state setter, which replaces the previous snapshot wholesale. -/
def snapshotToRecords {α : Type} (docs : List (StoreDoc α)) : List (LocalRecord α) :=
  docs.map (fun d => { id := d.id, fields := d.data })

/-- One collection synchronizer: whether its store subscription is still
attached, and the currently exposed local snapshot. -/
structure Synchronizer (α : Type) where
  active : Bool
  snapshot : List (LocalRecord α)
deriving DecidableEq

/-- Modelled from the spec: delivery of one store notification. The remote
store's subscription contract (spec section 5/6, not code under src/) is that
the callback fires only while the subscription is attached; while attached the
callback body replaces the snapshot with the mapped documents (src/App.jsx
lines 212-222), and after `unsubscribe()` no further callback fires. -/
def notify {α : Type} (s : Synchronizer α) (docs : List (StoreDoc α)) : Synchronizer α :=
  if s.active then { s with snapshot := snapshotToRecords docs } else s

/-- src/App.jsx lines 224-228: the effect cleanup invokes the stored
`unsubscribe` function, detaching the subscription. -/
def unsubscribe {α : Type} (s : Synchronizer α) : Synchronizer α :=
  { s with active := false }

/-- src/App.jsx line 314: `orders.slice(0, 5)` — the "Pedidos Recientes"
view, the first five entries of the snapshot, no sorting applied. -/
def recentOrders (orders : List Order) : List Order :=
  orders.take 5

/-- src/App.jsx line 326 and part_001 line 426: the low-stock predicate
`i.stock <= i.minimo`. -/
def isLowStock (i : InventoryItem) : Bool :=
  i.stock ≤ i.minimo

/-- src/App.jsx line 326: `inventory.filter(i => i.stock <= i.minimo)` — the
"Stock Bajo" dashboard list. -/
def lowStockList (inventory : List InventoryItem) : List InventoryItem :=
  inventory.filter (fun i => i.stock ≤ i.minimo)

/-- part_001 lines 426-428: the inventory card badge,
`item.stock <= item.minimo ? 'Bajo Stock' : 'Normal'`. -/
def stockBadge (i : InventoryItem) : String :=
  if i.stock ≤ i.minimo then "Bajo Stock" else "Normal"

/-- src/App.jsx line 409: the stock value submitted by the decrement button,
`Math.max(0, i.stock - 1)`, computed by the caller before the write. -/
def decrementStock (stock : Int) : Int :=
  max 0 (stock - 1)

/-- Outcome of an awaited remote write (`addDoc` / `updateDoc` / `deleteDoc`
resolving or rejecting). -/
inductive WriteResult where
  | ok
  | err (msg : String)
deriving DecidableEq

/-- The order input form (`orderForm` state). -/
structure OrderForm where
  cliente : String
  descripcion : String
  total : JSNum
  adelanto : JSNum
  estado : String
deriving DecidableEq

/-- The expense input form (`expenseForm` state). -/
structure ExpenseForm where
  concepto : String
  monto : JSNum
  fecha : String
deriving DecidableEq

/-- The inventory input form (`inventoryForm` state). -/
structure InventoryForm where
  item : String
  stock : Int
  minimo : Int
deriving DecidableEq

/-- The component-local state the mutation gateway could touch: the three
collection snapshots, the open-modal flag, and the three input forms. -/
structure AppState where
  orders : List Order
  expenses : List Expense
  inventory : List InventoryItem
  isModalOpen : Option String
  orderForm : OrderForm
  expenseForm : ExpenseForm
  inventoryForm : InventoryForm
deriving DecidableEq

/-- The document submitted by `addData`: `{ ...data, createdAt: new Date().toISOString() }`. -/
structure NewDoc (α : Type) where
  data : α
  createdAt : String
deriving DecidableEq

/-- src/App.jsx lines 231-237: `addData(type, data)` stamps `createdAt` onto
the record and awaits `addDoc`; on success it runs `setIsModalOpen(null)`;
a rejection jumps to the catch block, which only logs. Returns the submitted
document together with the resulting local state. -/
def addData {α : Type} (st : AppState) (data : α) (now : String)
    (res : WriteResult) : NewDoc α × AppState :=
  (⟨data, now⟩,
    match res with
    | .ok => { st with isModalOpen := none }
    | .err _ => st)

/-- src/App.jsx lines 239-242: `updateStatus(id, newStatus)` awaits a remote
`updateDoc { estado: newStatus }` and performs no local state update; the
result is the remote request issued, paired with the unchanged state. -/
def updateStatus (st : AppState) (id newStatus : String)
    (res : WriteResult) : (String × String) × AppState :=
  ((id, newStatus), st)

/-- src/App.jsx lines 244-247: `deleteItem(type, id)` awaits a remote
`deleteDoc` and performs no local state update. -/
def deleteItem (st : AppState) (ty id : String)
    (res : WriteResult) : (String × String) × AppState :=
  ((ty, id), st)

/-- Concrete orders used by witnesses (the spec's section 8 example). -/
def demoOrders : List Order :=
  [ { id := "o1", cliente := "A", total := some 1000, adelanto := some 200, estado := "Pendiente" }
  , { id := "o2", cliente := "B", total := some 500, adelanto := some 500, estado := "Entregado" } ]

/-- Concrete expenses used by witnesses. -/
def demoExpenses : List Expense :=
  [ { id := "e1", concepto := "Tinta", monto := some 300, fecha := "2024-01-01" } ]

/-- Concrete inventory item on the low-stock boundary, used by witnesses. -/
def demoItem : InventoryItem :=
  { id := "i1", item := "Papel", stock := 5, minimo := 5 }

-- ### Helper lemmas

/-- A left fold accumulating `f` over a list, started at `a`, is `a` plus the
sum of the mapped list. -/
theorem foldl_add_map_sum {α : Type} (f : α → ℚ) :
    ∀ (l : List α) (a : ℚ), l.foldl (fun s x => s + f x) a = a + (l.map f).sum := by
  intro l
  induction l with
  | nil => intro a; simp
  | cons x xs ih =>
    intro a
    simp only [List.foldl_cons, List.map_cons, List.sum_cons, ih]
    ring

/-- A synchronizer whose subscription is detached absorbs any sequence of
notifications without change. -/
theorem foldl_notify_inactive {α : Type} (snap : List (LocalRecord α)) :
    ∀ (notes : List (List (StoreDoc α))),
      notes.foldl notify { active := false, snapshot := snap } =
        { active := false, snapshot := snap } := by
  intro notes
  induction notes with
  | nil => rfl
  | cons d ds ih =>
    simp only [List.foldl_cons]
    have h : notify { active := false, snapshot := snap } d =
        { active := false, snapshot := snap } := by
      simp [notify]
    rw [h, ih]

-- ### Claims

/-- C1: for every orders snapshot and expenses snapshot, `stats` returns
`totalVentas` equal to the sum over all orders of the numeric value of
`total`, `totalRecaudado` equal to the sum of `adelanto`, and `totalGastos`
equal to the sum of `monto`, where a missing or non-coercible field
contributes exactly 0; on empty collections all three sums are 0. -/
theorem stats_totals_are_sums (orders : List Order) (expenses : List Expense) :
    (stats orders expenses).totalVentas = (orders.map specTotalContrib).sum ∧
    (stats orders expenses).totalRecaudado = (orders.map specAdvanceContrib).sum ∧
    (stats orders expenses).totalGastos = (expenses.map specExpenseContrib).sum ∧
    (∀ i c e a, specTotalContrib { id := i, cliente := c, total := none, adelanto := a, estado := e } = 0) ∧
    (∀ i c e t, specAdvanceContrib { id := i, cliente := c, total := t, adelanto := none, estado := e } = 0) ∧
    (∀ i c f, specExpenseContrib { id := i, concepto := c, monto := none, fecha := f } = 0) ∧
    (stats [] []).totalVentas = 0 ∧ (stats [] []).totalRecaudado = 0 ∧
    (stats [] []).totalGastos = 0 := by
  refine ⟨?_, ?_, ?_, ?_, ?_, ?_, rfl, rfl, rfl⟩
  · show orders.foldl (fun s o => s + numOr0 o.total) 0 = _
    rw [foldl_add_map_sum]
    simp only [zero_add]
    rfl
  · show orders.foldl (fun s o => s + numOr0 o.adelanto) 0 = _
    rw [foldl_add_map_sum]
    simp only [zero_add]
    rfl
  · show expenses.foldl (fun s e => s + numOr0 e.monto) 0 = _
    rw [foldl_add_map_sum]
    simp only [zero_add]
    rfl
  · intro i c e a; rfl
  · intro i c e t; rfl
  · intro i c f; rfl

/-- C2: `pedidosPendientes` counts the orders whose `estado` differs from
"Entregado", and replacing one delivered order's status with any other value
increases the count by exactly 1. -/
theorem pedidosPendientes_count (orders : List Order) (expenses : List Expense) :
    (stats orders expenses).pedidosPendientes =
      orders.countP (fun o => o.estado != "Entregado") ∧
    ∀ (i : Nat) (hi : i < orders.length) (s : String),
      (orders.get ⟨i, hi⟩).estado = "Entregado" → s ≠ "Entregado" →
      (stats (orders.set i { orders.get ⟨i, hi⟩ with estado := s }) expenses).pedidosPendientes =
        (stats orders expenses).pedidosPendientes + 1 := by
  constructor
  · show (orders.filter (fun o => o.estado != "Entregado")).length = _
    exact (List.countP_eq_length_filter _ _).symm
  · intro i hi s hold hs
    show (((orders.set i _).filter (fun o => o.estado != "Entregado")).length) =
      ((orders.filter (fun o => o.estado != "Entregado")).length) + 1
    rw [← List.countP_eq_length_filter, ← List.countP_eq_length_filter]
    rw [List.set_eq_take_cons_drop _ hi]
    conv_rhs => rw [← List.take_append_drop i orders,
      ← List.getElem_cons_drop orders i hi]
    rw [List.countP_append, List.countP_append, List.countP_cons, List.countP_cons]
    have hold' : orders[i].estado = "Entregado" := by
      simpa [List.get_eq_getElem] using hold
    simp [hold', hs]
    omega

/-- Witness for C2 on the spec's example snapshot: the delivered order at
index 1 is moved to "Listo" and the active count rises from 1 to 2. -/
theorem pedidosPendientes_count_witness :
    (stats demoOrders demoExpenses).pedidosPendientes =
      demoOrders.countP (fun o => o.estado != "Entregado") ∧
    (stats (demoOrders.set 1 { demoOrders.get ⟨1, by decide⟩ with estado := "Listo" })
        demoExpenses).pedidosPendientes =
      (stats demoOrders demoExpenses).pedidosPendientes + 1 := by
  have h := pedidosPendientes_count demoOrders demoExpenses
  exact ⟨h.1, h.2 1 (by decide) "Listo" (by decide) (by decide)⟩

/-- C3: `balance` equals `totalRecaudado - totalGastos` computed from the same
inputs, and on two empty collections `balance` is 0. -/
theorem balance_identity (orders : List Order) (expenses : List Expense) :
    (stats orders expenses).balance =
      (stats orders expenses).totalRecaudado - (stats orders expenses).totalGastos ∧
    (stats [] []).balance = 0 := by
  refine ⟨rfl, ?_⟩
  show (0 : ℚ) - 0 = 0
  simp

/-- C4: a store notification delivered to an attached synchronizer replaces
its exposed snapshot with exactly the delivered documents tagged with their
store-assigned ids, in the delivered order, independent of the previous
snapshot. -/
theorem snapshot_replacement {α : Type} (prev prevAlt : List (LocalRecord α))
    (docs : List (StoreDoc α)) :
    (notify { active := true, snapshot := prev } docs).snapshot =
      snapshotToRecords docs ∧
    (notify { active := true, snapshot := prev } docs).snapshot =
      (notify { active := true, snapshot := prevAlt } docs).snapshot ∧
    (notify { active := true, snapshot := prev } docs).snapshot.map LocalRecord.id =
      docs.map StoreDoc.id ∧
    (notify { active := true, snapshot := prev } docs).snapshot.map LocalRecord.fields =
      docs.map StoreDoc.data ∧
    (notify { active := true, snapshot := prev } docs).snapshot.length = docs.length := by
  refine ⟨rfl, rfl, ?_, ?_, ?_⟩ <;> simp [notify, snapshotToRecords]

/-- C5: the "Pedidos Recientes" view is exactly the first five entries of the
orders snapshot in delivered order — truncation with no sorting: entry `i` of
the view is entry `i` of the snapshot. -/
theorem recent_orders_first_five (orders : List Order) :
    recentOrders orders = orders.take 5 ∧
    (recentOrders orders).length = min 5 orders.length ∧
    ∀ i : Nat, (recentOrders orders)[i]? = if i < 5 then orders[i]? else none := by
  refine ⟨rfl, by simp [recentOrders], ?_⟩
  intro i
  by_cases h : i < 5
  · simp [recentOrders, List.getElem?_take, h]
  · simp only [h, if_false]
    apply List.getElem?_eq_none
    have : (recentOrders orders).length ≤ 5 := by
      simp [recentOrders]
    omega

/-- C6: the decrement button submits `max 0 (stock - 1)`; for every stock
value `s ≥ 0` the submitted value is non-negative, and at `s = 0` it is 0. -/
theorem decrement_clamped (s : Int) (h : 0 ≤ s) :
    decrementStock s = max 0 (s - 1) ∧
    0 ≤ decrementStock s ∧
    decrementStock 0 = 0 := by
  refine ⟨rfl, ?_, rfl⟩
  simp [decrementStock]

/-- Witness for C6 at stock 3: the hypothesis `0 ≤ 3` is discharged and the
conclusion evaluated. -/
theorem decrement_clamped_witness :
    (0 : Int) ≤ 3 ∧
    (decrementStock 3 = max 0 (3 - 1) ∧
      0 ≤ decrementStock 3 ∧
      decrementStock 0 = 0) :=
  ⟨by decide, decrement_clamped 3 (by decide)⟩

/-- C7: `addData` submits the given record extended with the `createdAt`
stamp; on success the modal flag is cleared and nothing else changes; on
failure the whole local state — modal, snapshots, forms — is untouched. -/
theorem addData_contract {α : Type} (st : AppState) (data : α) (now : String)
    (msg : String) :
    (addData st data now .ok).1 = ⟨data, now⟩ ∧
    (addData st data now (.err msg)).1 = ⟨data, now⟩ ∧
    (addData st data now .ok).2 = { st with isModalOpen := none } ∧
    (addData st data now (.err msg)).2 = st := by
  exact ⟨rfl, rfl, rfl, rfl⟩

/-- C8: none of the gateway operations mutates a local collection snapshot,
whatever the write outcome: `addData` touches at most the modal flag, and
`updateStatus` and `deleteItem` leave the entire local state unchanged. -/
theorem gateway_frame {α : Type} (st : AppState) (data : α) (now : String)
    (id newStatus ty : String) (res : WriteResult) :
    (addData st data now res).2.orders = st.orders ∧
    (addData st data now res).2.expenses = st.expenses ∧
    (addData st data now res).2.inventory = st.inventory ∧
    (updateStatus st id newStatus res).2 = st ∧
    (deleteItem st ty id res).2 = st := by
  cases res <;> exact ⟨rfl, rfl, rfl, rfl, rfl⟩

/-- C9: once a synchronizer's subscription is detached, no sequence of
subsequently delivered notifications changes its exposed snapshot. -/
theorem teardown_no_further_updates {α : Type} (s : Synchronizer α)
    (notes : List (List (StoreDoc α))) :
    (notes.foldl notify (unsubscribe s)).snapshot = s.snapshot := by
  show (notes.foldl notify { active := false, snapshot := s.snapshot }).snapshot = _
  rw [foldl_notify_inactive]

/-- C10: the low-stock classification is the non-strict comparison
`stock ≤ minimo`: an item whose stock equals its threshold is classified low
stock and badged "Bajo Stock", not "Normal", and the dashboard list filters by
exactly this predicate. -/
theorem low_stock_boundary (i : InventoryItem) (h : i.stock = i.minimo) :
    isLowStock i = true ∧
    stockBadge i = "Bajo Stock" ∧
    stockBadge i ≠ "Normal" ∧
    (∀ j : InventoryItem, (isLowStock j = true ↔ j.stock ≤ j.minimo)) ∧
    (∀ inv : List InventoryItem, lowStockList inv = inv.filter (fun j => isLowStock j)) := by
  refine ⟨?_, ?_, ?_, ?_, ?_⟩
  · simp [isLowStock, h]
  · simp [stockBadge, h]
  · simp [stockBadge, h]
  · intro j; simp [isLowStock]
  · intro inv; rfl

/-- Witness for C10 at the boundary item with stock 5 and threshold 5. -/
theorem low_stock_boundary_witness :
    isLowStock demoItem = true ∧
    stockBadge demoItem = "Bajo Stock" ∧
    stockBadge demoItem ≠ "Normal" ∧
    (∀ j : InventoryItem, (isLowStock j = true ↔ j.stock ≤ j.minimo)) ∧
    (∀ inv : List InventoryItem, lowStockList inv = inv.filter (fun j => isLowStock j)) :=
  low_stock_boundary demoItem (by decide)

end StudioManager
